import Mathlib

/-!
Verification of the Competitive Measurement Parameter Estimator and
Signal Enhancement Factor (SEF) Calculator of the
UP1_Environmental_Noise_Cancellation repository.

The Python sources are embedded shallowly: finite floating-point
arithmetic is idealised as exact arithmetic over `ℚ`/`ℝ`, while the
non-finite float values that the scripts can actually produce
(`np.inf`, NaN) are represented explicitly by the `NpValue` type.
-/

namespace UP1

/-- Model of a numpy floating-point result: a finite real number,
positive infinity (`np.inf`), or NaN. -/
inductive NpValue where
  | fin (x : ℝ)
  | inf
  | nan

open Classical in
/-- Embedding of `calculate_sef` from `src/scripts/validate_sef_framework.py`
lines 21-33 (the identical function appears in
`src/scripts/validate_multi_domain_sef.py` lines 18-30):

    if (1 + kappa - 2 * np.sqrt(kappa) * rho) <= 0:
        return np.inf
    return (1 + kappa) / (1 + kappa - 2 * np.sqrt(kappa) * rho)

For `kappa < 0`, `np.sqrt(kappa)` is NaN (the scripts suppress the
RuntimeWarning); a NaN denominator makes the `<= 0` comparison False and
then propagates through the division, so the call returns NaN. -/
noncomputable def calculate_sef (kappa rho : ℝ) : NpValue :=
  if kappa < 0 then .nan
  else if 1 + kappa - 2 * Real.sqrt kappa * rho ≤ 0 then .inf
  else .fin ((1 + kappa) / (1 + kappa - 2 * Real.sqrt kappa * rho))

/-- Mean of a series, modelling `pandas.Series.mean`.  pandas returns NaN
for an empty series; here the rational division by zero yields `0`, and
every theorem using `mean` assumes a nonempty list. -/
def mean (xs : List ℚ) : ℚ := xs.sum / (xs.length : ℚ)

/-- Unbiased sample variance (`ddof = 1`), modelling `pandas.Series.var`.
pandas returns NaN for fewer than two observations; here the rational
division by zero yields `0`, and every theorem using `sampleVar` assumes
at least two observations. -/
def sampleVar (xs : List ℚ) : ℚ :=
  (xs.map (fun x => (x - mean xs) ^ 2)).sum / ((xs.length : ℚ) - 1)

/-- `pandas.Series.std`: NaN (`none`) when the series has fewer than two
observations, otherwise the square root of the unbiased sample variance. -/
noncomputable def pandasStd (xs : List ℚ) : Option ℝ :=
  if xs.length < 2 then none else some (Real.sqrt ((sampleVar xs : ℚ) : ℝ))

/-- Variance ratio from `validate_sef_framework` line 77:
`kappa = var_b / var_a`. -/
def sefKappa (class_a class_b : List ℚ) : ℚ :=
  sampleVar class_b / sampleVar class_a

/-- Signal separation from `validate_sef_framework` line 78 (identically
`validate_domain_sef` in `validate_multi_domain_sef.py` line 66):
`delta = abs(mean_a - mean_b) / std_a` with `std_a = np.sqrt(var_a)`. -/
noncomputable def sefDelta (class_a class_b : List ℚ) : ℝ :=
  |((mean class_a : ℚ) : ℝ) - ((mean class_b : ℚ) : ℝ)| /
    Real.sqrt ((sampleVar class_a : ℚ) : ℝ)

/-- The SEF parameters computed by `validate_sef_framework` lines 64-78. -/
structure SefParams where
  kappa : ℚ
  delta : ℝ

/-- The data-dependent core of `validate_sef_framework`
(`src/scripts/validate_sef_framework.py` lines 60-78), after the groups
have been partitioned and missing values dropped: a group with fewer than
10 samples makes the function print "INSUFFICIENT SAMPLE SIZE" and return
`None`; otherwise the SEF parameters are computed. -/
noncomputable def validate_sef_framework (class_a class_b : List ℚ) :
    Option SefParams :=
  if class_a.length < 10 ∨ class_b.length < 10 then none
  else some ⟨sefKappa class_a class_b, sefDelta class_a class_b⟩

open Classical in
/-- The variance-ratio expression of `calculate_sef_parameters` in
`src/scripts/apply_sef_to_cms_data.py` line 160, applied to the final
(possibly transformed) group data once the normality preamble has
returned; `calculate_sef_parameters_kappa` below supplies that preamble:

    kappa = (cleveland_std ** 2) / (mayo_std ** 2) if mayo_std != 0 else np.inf

`pandasStd` returns `none` for the NaN standard deviation of a sample of
fewer than two observations; Python's `nan != 0` is True, so a NaN
`mayo_std` enters the division and the quotient is NaN, and a NaN
`cleveland_std` likewise makes the quotient NaN. -/
noncomputable def cmsKappa (mayo cleveland : List ℚ) : NpValue :=
  match pandasStd mayo with
  | none => .nan
  | some m =>
    if m ≠ 0 then
      match pandasStd cleveland with
      | none => .nan
      | some c => .fin (c ^ 2 / m ^ 2)
    else .inf

/-- The unhandled exception scipy raises inside the normality preamble:
`normaltest` calls `skewtest`, which raises
ValueError for samples of fewer than 8 observations. -/
inductive ScipyError where
  | valueError
deriving DecidableEq

/-- Embedding of `test_normality_and_log_transform` from
`src/scripts/apply_sef_to_cms_data.py` lines 83-135, as observable by its
caller.  A group of fewer than 3 valid observations prints a message and
is returned untransformed (no scipy test runs).  A group of 3 to 7
observations passes `shapiro` and `kstest`, but `normaltest` (line 96)
raises ValueError unhandled, because scipy's `skewtest` requires at least
8 samples.  For 8 or more observations which data comes back (raw or
log-transformed) is decided by the external scipy p-values, taken here as
the parameter `bigSample`.  The lists model the already-`dropna`d numeric
series. -/
def test_normality_and_log_transform
    (bigSample : List ℚ → Except ScipyError (List ℚ)) (data : List ℚ) :
    Except ScipyError (List ℚ) :=
  if data.length < 3 then .ok data
  else if data.length ≤ 7 then .error .valueError
  else bigSample data

/-- The kappa computation of `calculate_sef_parameters`
(`src/scripts/apply_sef_to_cms_data.py` lines 131-188): both groups first
pass through `test_normality_and_log_transform` (Mayo first), so a
ValueError raised there propagates out and the kappa line is never
reached; otherwise kappa is the guarded ratio of squared standard
deviations of the final data (`cmsKappa`). -/
noncomputable def calculate_sef_parameters_kappa
    (bigSample : List ℚ → Except ScipyError (List ℚ))
    (mayo cleveland : List ℚ) : Except ScipyError NpValue :=
  match test_normality_and_log_transform bigSample mayo with
  | .error e => .error e
  | .ok mayo_final =>
    match test_normality_and_log_transform bigSample cleveland with
    | .error e => .error e
    | .ok cleveland_final => .ok (cmsKappa mayo_final cleveland_final)

open Classical in
/-- Embedding of `calculate_sef_improvement` from
`src/scripts/apply_sef_to_cms_data.py` lines 190-214:

    snr_independent = (delta ** 2) / (mayo_var + cleveland_var)
    relative_var = mayo_var + cleveland_var - 2 * rho * mayo_std * cleveland_std
    snr_relative = (delta ** 2) / relative_var if relative_var > 0 else np.inf
    sef = snr_relative / snr_independent if snr_independent > 0 else np.inf

with `mayo_var = mayo_std ** 2` and `cleveland_var = cleveland_std ** 2`.
An infinite `snr_relative` divided by a positive `snr_independent` stays
infinite.  The only float behaviour not captured is division by a zero
`mayo_var + cleveland_var` (both standard deviations zero), which every
theorem below excludes. -/
noncomputable def calculate_sef_improvement
    (delta mayo_std cleveland_std rho : ℝ) : NpValue :=
  let mayo_var := mayo_std ^ 2
  let cleveland_var := cleveland_std ^ 2
  let snr_independent := delta ^ 2 / (mayo_var + cleveland_var)
  let relative_var := mayo_var + cleveland_var - 2 * rho * mayo_std * cleveland_std
  let snr_relative : NpValue :=
    if 0 < relative_var then .fin (delta ^ 2 / relative_var) else .inf
  if 0 < snr_independent then
    match snr_relative with
    | .fin x => .fin (x / snr_independent)
    | .inf => .inf
    | .nan => .nan
  else .inf

/-- A cell of an observation table: a numeric value, a string label, or
missing (NaN). -/
inductive Value where
  | num (q : ℚ)
  | str (s : String)
  | na
deriving DecidableEq

/-- A pandas DataFrame: named columns and rows of cells.  Rows are lists
of cells indexed positionally by the column list; entries beyond a row's
length read as missing. -/
structure DataFrame where
  cols : List String
  rows : List (List Value)

/-- The error raised by pandas column access: `KeyError(column)`. -/
inductive PandasError where
  | keyError (col : String)
deriving DecidableEq

/-- Embedding of the Group Partitioner expression
`df[df[class_a_col] == class_a_value][measurement_col].dropna()` from
`validate_sef_framework` lines 54-55.  Accessing a column that is not in
the frame raises `KeyError(column)`, and the grouping column is accessed
first.  `dropna` keeps only the non-missing cells of the measurement
column, which by the data-model invariant are numeric. -/
def partitionSeries (df : DataFrame) (classCol : String) (label : Value)
    (measCol : String) : Except PandasError (List ℚ) :=
  match df.cols.findIdx? (· == classCol) with
  | none => .error (.keyError classCol)
  | some i =>
    match df.cols.findIdx? (· == measCol) with
    | none => .error (.keyError measCol)
    | some j =>
      let sub := df.rows.filter (fun r => r.getD i .na == label)
      .ok (sub.filterMap (fun r =>
        match r.getD j .na with
        | .num q => some q
        | _ => none))

/-- Embedding of `test_normality` from
`src/data/raw/Scraped Data/Code/validate_clinical_data.py` lines 135-165.
The scipy test statistics are external collaborators, so the function is
parameterised by them; it returns the result dictionary as a list of
(test name, result) entries in insertion order.  The second entry is the
D-Agostino K-squared test (its Python key spells the name with characters
kept out of this file). -/
def test_normality {α : Type} (shapiroF normaltestF jarque_beraF : List ℚ → α)
    (data : List ℚ) : List (String × α) :=
  (if 3 ≤ data.length ∧ data.length ≤ 5000 then
    [("Shapiro-Wilk", shapiroF data)] else [])
  ++ (if 8 ≤ data.length then [("DAgostino K2", normaltestF data)] else [])
  ++ (if 8 ≤ data.length then [("Jarque-Bera", jarque_beraF data)] else [])

/-! ### Helper lemmas -/

/-- Unfolding lemma: in the non-degenerate regime the SEF calculator takes
the final `return` of `calculate_sef`. -/
lemma calculate_sef_eq_fin (kappa rho : ℝ) (h0 : ¬ kappa < 0)
    (hd : 0 < 1 + kappa - 2 * Real.sqrt kappa * rho) :
    calculate_sef kappa rho =
      NpValue.fin ((1 + kappa) / (1 + kappa - 2 * Real.sqrt kappa * rho)) := by
  unfold calculate_sef
  rw [if_neg h0, if_neg (not_le.2 hd)]

/-- Unfolding lemma: a non-positive denominator takes the `np.inf` branch. -/
lemma calculate_sef_eq_inf (kappa rho : ℝ) (h0 : ¬ kappa < 0)
    (hd : 1 + kappa - 2 * Real.sqrt kappa * rho ≤ 0) :
    calculate_sef kappa rho = NpValue.inf := by
  unfold calculate_sef
  rw [if_neg h0, if_pos hd]

/-- At `rho = 0` the guarded denominator is `1 + kappa`, so for any
`kappa ≥ 0` the calculator returns `(1 + kappa) / (1 + kappa) = 1`. -/
lemma calculate_sef_at_zero_rho (kappa : ℝ) (hk : 0 ≤ kappa) :
    calculate_sef kappa 0 = NpValue.fin 1 := by
  have h1 : (0 : ℝ) < 1 + kappa := by linarith
  rw [calculate_sef_eq_fin kappa 0 (not_lt.2 hk) (by rw [mul_zero]; linarith)]
  rw [mul_zero, sub_zero, div_self h1.ne']

lemma mean_scenario_a : mean [10, 12, 14, 16, 18] = 14 := by
  norm_num [mean, List.sum_cons, List.sum_nil]

lemma mean_scenario_b : mean [5, 25, 45] = 25 := by
  norm_num [mean, List.sum_cons, List.sum_nil]

lemma var_scenario_a : sampleVar [10, 12, 14, 16, 18] = 10 := by
  norm_num [sampleVar, mean_scenario_a, List.sum_cons, List.sum_nil]

lemma var_scenario_b : sampleVar [5, 25, 45] = 400 := by
  norm_num [sampleVar, mean_scenario_b, List.sum_cons, List.sum_nil]

/-- The signal separation the scripts compute on the concrete scenario:
`abs(14 - 25) / sqrt(10)`. -/
lemma sefDelta_scenario :
    sefDelta [10, 12, 14, 16, 18] [5, 25, 45] = 11 / Real.sqrt 10 := by
  unfold sefDelta
  rw [mean_scenario_a, mean_scenario_b, var_scenario_a]
  push_cast
  rw [show (14 : ℝ) - 25 = -11 by norm_num, abs_neg,
    abs_of_nonneg (by norm_num : (0 : ℝ) ≤ 11)]

/-! ### The claims -/

/-- C1: for every `kappa > 0` and `rho ∈ [-1, 1]`, the SEF Calculator
computes the denominator `1 + kappa - 2 * sqrt kappa * rho`, returns
`np.inf` when the denominator is `≤ 0`, and otherwise returns
`(1 + kappa) / denominator`, a single non-negative scalar derived purely
from `(kappa, rho)`. -/
theorem sef_calculator_formula (kappa rho : ℝ) (hk : 0 < kappa)
    (_hr : -1 ≤ rho ∧ rho ≤ 1) :
    (1 + kappa - 2 * Real.sqrt kappa * rho ≤ 0 →
      calculate_sef kappa rho = NpValue.inf) ∧
    (0 < 1 + kappa - 2 * Real.sqrt kappa * rho →
      calculate_sef kappa rho =
        NpValue.fin ((1 + kappa) / (1 + kappa - 2 * Real.sqrt kappa * rho)) ∧
      0 ≤ (1 + kappa) / (1 + kappa - 2 * Real.sqrt kappa * rho)) := by
  constructor
  · intro hd
    exact calculate_sef_eq_inf kappa rho (not_lt.2 hk.le) hd
  · intro hd
    refine ⟨calculate_sef_eq_fin kappa rho (not_lt.2 hk.le) hd, ?_⟩
    exact div_nonneg (by linarith) hd.le

theorem sef_calculator_formula_witness :
    calculate_sef 1 0 = NpValue.fin ((1 + 1) / (1 + 1 - 2 * Real.sqrt 1 * 0)) :=
  ((sef_calculator_formula 1 0 (by norm_num) ⟨by norm_num, by norm_num⟩).2
    (by rw [Real.sqrt_one]; norm_num)).1

/-- C2 counterexample: the claim `SEF(kappa, 0) = 1 + kappa` fails at
`kappa = 1`: the code returns `(1 + 1) / (1 + 1) = 1`, not `2`. -/
theorem sef_zero_rho_counterexample :
    calculate_sef 1 0 = NpValue.fin 1 ∧
    calculate_sef 1 0 ≠ NpValue.fin (1 + 1) := by
  have h : calculate_sef 1 0 = NpValue.fin 1 :=
    calculate_sef_at_zero_rho 1 (by norm_num)
  refine ⟨h, ?_⟩
  rw [h]
  intro hcontra
  have := NpValue.fin.inj hcontra
  norm_num at this

/-- C2 amended: for every `kappa > 0`, the SEF Calculator applied to
correlation `rho = 0` returns exactly `1` (the denominator equals the
numerator `1 + kappa`). -/
theorem sef_zero_rho_eq_one (kappa : ℝ) (hk : 0 < kappa) :
    calculate_sef kappa 0 = NpValue.fin 1 :=
  calculate_sef_at_zero_rho kappa hk.le

theorem sef_zero_rho_eq_one_witness :
    (0 : ℝ) < 3 ∧ calculate_sef 3 0 = NpValue.fin 1 :=
  ⟨by norm_num, sef_zero_rho_eq_one 3 (by norm_num)⟩

/-- C3 counterexample: on Group A = [10, 12, 14, 16, 18] and
Group B = [5, 25, 45], the computed signal separation is
`abs(14 - 25) / sqrt 10`, which is positive and therefore differs from the
claimed signed value `(14 - 25) / sqrt 10 ≈ -3.479`; and
`calculate_sef 40 0` returns `1`, not the claimed `41`. -/
theorem concrete_scenario_counterexample :
    sefDelta [10, 12, 14, 16, 18] [5, 25, 45] ≠ (14 - 25) / Real.sqrt 10 ∧
    calculate_sef 40 0 ≠ NpValue.fin 41 := by
  have hsqrt : 0 < Real.sqrt 10 := Real.sqrt_pos.2 (by norm_num)
  constructor
  · rw [sefDelta_scenario]
    have hpos : 0 < 11 / Real.sqrt 10 := by positivity
    have hneg : (14 - 25) / Real.sqrt 10 < 0 := by
      apply div_neg_of_neg_of_pos (by norm_num) hsqrt
    exact fun h => absurd (h ▸ hpos) (not_lt.2 hneg.le)
  · rw [calculate_sef_at_zero_rho 40 (by norm_num)]
    intro hcontra
    have := NpValue.fin.inj hcontra
    norm_num at this

/-- C3 amended: on Group A = [10, 12, 14, 16, 18] and Group B = [5, 25, 45]
the Parameter Estimator produces `kappa = 40` and
`delta = abs(14 - 25) / sqrt 10 ≈ +3.479` (the code takes the absolute
difference of the means), and with `rho = 0` the SEF Calculator returns
exactly `1`. -/
theorem concrete_scenario_values :
    sefKappa [10, 12, 14, 16, 18] [5, 25, 45] = 40 ∧
    sefDelta [10, 12, 14, 16, 18] [5, 25, 45] = 11 / Real.sqrt 10 ∧
    calculate_sef 40 0 = NpValue.fin 1 :=
  ⟨by norm_num [sefKappa, var_scenario_a, var_scenario_b],
    sefDelta_scenario, calculate_sef_at_zero_rho 40 (by norm_num)⟩

lemma mean_pair_a : mean [0, 2] = 1 := by
  norm_num [mean, List.sum_cons, List.sum_nil]

lemma mean_pair_b : mean [3, 5] = 4 := by
  norm_num [mean, List.sum_cons, List.sum_nil]

lemma var_pair_a : sampleVar [0, 2] = 2 := by
  norm_num [sampleVar, mean_pair_a, List.sum_cons, List.sum_nil]

/-- C4 counterexample: on Group A = [0, 2] (mean 1, variance 2) and
Group B = [3, 5] (mean 4), `mean_A < mean_B`, yet the computed delta is
`abs(1 - 4) / sqrt 2 > 0` and so differs from the claimed signed value
`(1 - 4) / sqrt 2 < 0`. -/
theorem delta_signed_counterexample :
    mean [0, 2] < mean [3, 5] ∧
    sefDelta [0, 2] [3, 5] ≠
      (((mean [0, 2] : ℚ) : ℝ) - ((mean [3, 5] : ℚ) : ℝ)) /
        Real.sqrt ((sampleVar [0, 2] : ℚ) : ℝ) := by
  have hsqrt : 0 < Real.sqrt ((2 : ℚ) : ℝ) := Real.sqrt_pos.2 (by norm_num)
  refine ⟨by rw [mean_pair_a, mean_pair_b]; norm_num, ?_⟩
  rw [mean_pair_a, mean_pair_b, var_pair_a]
  unfold sefDelta
  rw [mean_pair_a, mean_pair_b, var_pair_a]
  have hpos : 0 < |((1 : ℚ) : ℝ) - ((4 : ℚ) : ℝ)| / Real.sqrt ((2 : ℚ) : ℝ) := by
    apply div_pos _ hsqrt
    rw [abs_pos]
    norm_num
  have hneg : (((1 : ℚ) : ℝ) - ((4 : ℚ) : ℝ)) / Real.sqrt ((2 : ℚ) : ℝ) < 0 := by
    apply div_neg_of_neg_of_pos _ hsqrt
    norm_num
  exact fun h => absurd (h ▸ hpos) (not_lt.2 hneg.le)

/-- C4 amended: the standardized difference the code computes is the
absolute difference of the group means over Group A's standard deviation:
whenever `mean_A < mean_B` it equals the positive value
`(mean_B - mean_A) / sqrt var_A` rather than the negative signed value. -/
theorem delta_is_absolute (a b : List ℚ) (hv : 0 < sampleVar a)
    (hm : mean a < mean b) :
    sefDelta a b =
      (((mean b : ℚ) : ℝ) - ((mean a : ℚ) : ℝ)) /
        Real.sqrt ((sampleVar a : ℚ) : ℝ) ∧
    0 < sefDelta a b := by
  have hv' : (0 : ℝ) < ((sampleVar a : ℚ) : ℝ) := by exact_mod_cast hv
  have hsqrt : 0 < Real.sqrt ((sampleVar a : ℚ) : ℝ) := Real.sqrt_pos.2 hv'
  have hm' : ((mean a : ℚ) : ℝ) < ((mean b : ℚ) : ℝ) := by exact_mod_cast hm
  have habs : |((mean a : ℚ) : ℝ) - ((mean b : ℚ) : ℝ)| =
      ((mean b : ℚ) : ℝ) - ((mean a : ℚ) : ℝ) := by
    rw [abs_of_neg (by linarith), neg_sub]
  unfold sefDelta
  rw [habs]
  exact ⟨rfl, div_pos (by linarith) hsqrt⟩

theorem delta_is_absolute_witness :
    (0 : ℚ) < sampleVar [0, 2] ∧ mean [0, 2] < mean [3, 5] ∧
    0 < sefDelta [0, 2] [3, 5] :=
  ⟨by rw [var_pair_a]; norm_num,
    by rw [mean_pair_a, mean_pair_b]; norm_num,
    (delta_is_absolute [0, 2] [3, 5] (by rw [var_pair_a]; norm_num)
      (by rw [mean_pair_a, mean_pair_b]; norm_num)).2⟩

/-- C5 counterexample: the claim that every `kappa ≤ 0` raises or returns
an explicit error fails: at `kappa = -1` the calculator silently returns
NaN (the NaN of `np.sqrt(-1)` propagates through the comparison and the
division), and at `kappa = 0` it silently returns the finite value `1`. -/
theorem sef_degenerate_kappa_counterexample :
    calculate_sef (-1) 0 = NpValue.nan ∧ calculate_sef 0 0 = NpValue.fin 1 := by
  constructor
  · unfold calculate_sef
    rw [if_pos (by norm_num)]
  · exact calculate_sef_at_zero_rho 0 le_rfl

/-- C5 amended: for `kappa ≤ 0` the SEF Calculator signals no error:
`kappa < 0` silently yields NaN, and `kappa = 0` silently yields the
finite value `1` (the denominator is `1 - 2 * sqrt 0 * rho = 1`). -/
theorem sef_nonpositive_kappa_behavior (kappa rho : ℝ) (hk : kappa ≤ 0) :
    (kappa < 0 → calculate_sef kappa rho = NpValue.nan) ∧
    (kappa = 0 → calculate_sef kappa rho = NpValue.fin 1) := by
  constructor
  · intro h
    unfold calculate_sef
    rw [if_pos h]
  · intro h
    subst h
    rw [calculate_sef_eq_fin 0 rho (lt_irrefl 0)
      (by rw [Real.sqrt_zero]; norm_num)]
    rw [Real.sqrt_zero]
    norm_num

theorem sef_nonpositive_kappa_behavior_witness :
    (-2 : ℝ) ≤ 0 ∧ calculate_sef (-2) 1 = NpValue.nan :=
  ⟨by norm_num,
    (sef_nonpositive_kappa_behavior (-2) 1 (by norm_num)).1 (by norm_num)⟩

lemma var_const_pair : sampleVar [7, 7] = 0 := by
  norm_num [sampleVar, mean, List.sum_cons, List.sum_nil]

/-- C6 counterexample: no `InsufficientSampleError` or
`DegenerateVarianceError` exists anywhere in the repository, and
`var_A = 0` need not fail at all: on Mayo data [7, 7] (two valid
observations, variance 0) and Cleveland data [1, 2], both groups are too
small for the normality preamble to invoke any scipy test (the external
`bigSample` behaviour, here the identity, is never consulted), the kappa
line is reached, and `calculate_sef_parameters` silently returns the
numeric variance ratio `kappa = np.inf`. -/
theorem degenerate_variance_counterexample :
    sampleVar [7, 7] = 0 ∧
    calculate_sef_parameters_kappa (fun xs => Except.ok xs) [7, 7] [1, 2] =
      Except.ok NpValue.inf := by
  refine ⟨var_const_pair, ?_⟩
  have hstd : pandasStd [7, 7] = some 0 := by
    unfold pandasStd
    rw [if_neg (by norm_num)]
    rw [var_const_pair]
    norm_num [Real.sqrt_zero]
  unfold calculate_sef_parameters_kappa test_normality_and_log_transform
  rw [if_pos (by norm_num : ([7, 7] : List ℚ).length < 3),
    if_pos (by norm_num : ([1, 2] : List ℚ).length < 3)]
  show Except.ok (cmsKappa [7, 7] [1, 2]) = Except.ok NpValue.inf
  unfold cmsKappa
  rw [hstd]
  simp

/-- C6 amended: a group with fewer than 10 valid observations (in
particular one with fewer than 2) makes `validate_sef_framework` print
"INSUFFICIENT SAMPLE SIZE" and return `None`; neither named exception
type exists.  In `calculate_sef_parameters`, a group of 3 to 7
observations makes scipy `normaltest` raise an unhandled ValueError
before kappa is computed; but when both groups have fewer than 3
observations the normality preamble runs no scipy test, and with
`var_A = 0` (a two-element constant group) the estimator does not fail:
it silently returns `kappa = np.inf` instead of a
`DegenerateVarianceError`. -/
theorem estimator_failure_behavior
    (bigSample : List ℚ → Except ScipyError (List ℚ))
    (a b mid other mayo cleveland : List ℚ)
    (hlen : a.length < 10 ∨ b.length < 10)
    (hmid : 3 ≤ mid.length ∧ mid.length ≤ 7)
    (hm : mayo.length = 2) (hc : cleveland.length < 3)
    (hv : sampleVar mayo = 0) :
    validate_sef_framework a b = none ∧
    calculate_sef_parameters_kappa bigSample mid other =
      Except.error ScipyError.valueError ∧
    calculate_sef_parameters_kappa bigSample mayo cleveland =
      Except.ok NpValue.inf := by
  refine ⟨?_, ?_, ?_⟩
  · unfold validate_sef_framework
    rw [if_pos hlen]
  · unfold calculate_sef_parameters_kappa test_normality_and_log_transform
    rw [if_neg (not_lt.2 hmid.1), if_pos hmid.2]
  · have hstd : pandasStd mayo = some 0 := by
      unfold pandasStd
      rw [if_neg (by omega), hv]
      norm_num [Real.sqrt_zero]
    unfold calculate_sef_parameters_kappa test_normality_and_log_transform
    rw [if_pos (by omega : mayo.length < 3), if_pos hc]
    show Except.ok (cmsKappa mayo cleveland) = Except.ok NpValue.inf
    unfold cmsKappa
    rw [hstd]
    simp

theorem estimator_failure_behavior_witness :
    (([1] : List ℚ).length < 10 ∨ ([2] : List ℚ).length < 10) ∧
    (3 ≤ ([1, 2, 3] : List ℚ).length ∧ ([1, 2, 3] : List ℚ).length ≤ 7) ∧
    ([7, 7] : List ℚ).length = 2 ∧ sampleVar [7, 7] = 0 ∧
    (validate_sef_framework [1] [2] = none ∧
      calculate_sef_parameters_kappa (fun xs => Except.ok xs) [1, 2, 3] [] =
        Except.error ScipyError.valueError ∧
      calculate_sef_parameters_kappa (fun xs => Except.ok xs) [7, 7] [1, 2] =
        Except.ok NpValue.inf) :=
  ⟨Or.inl (by norm_num), ⟨by norm_num, by norm_num⟩, by norm_num,
    var_const_pair,
    estimator_failure_behavior (fun xs => Except.ok xs) [1] [2] [1, 2, 3] []
      [7, 7] [1, 2] (Or.inl (by norm_num)) ⟨by norm_num, by norm_num⟩
      (by norm_num) (by norm_num) var_const_pair⟩

/-- C7: accessing a grouping column that is not in the table makes the
Group Partitioner fail with the `KeyError` naming that column (the spec's
`MissingColumnError`), and this is the only error kind the partitioner can
raise: `PandasError` has the single constructor `keyError`. -/
theorem missing_column_key_error (df : DataFrame) (classCol measCol : String)
    (label : Value) (h : classCol ∉ df.cols) :
    partitionSeries df classCol label measCol =
      Except.error (PandasError.keyError classCol) := by
  have hidx : df.cols.findIdx? (· == classCol) = none := by
    rw [List.findIdx?_eq_none_iff]
    intro x hx
    exact beq_eq_false_iff_ne.2 (fun he => h (he ▸ hx))
  unfold partitionSeries
  rw [hidx]

theorem missing_column_key_error_witness :
    "group" ∉ (DataFrame.mk ["measure"] [[Value.num 1]]).cols ∧
    partitionSeries (DataFrame.mk ["measure"] [[Value.num 1]]) "group"
      (Value.str "A") "measure" =
      Except.error (PandasError.keyError "group") :=
  ⟨by decide, missing_column_key_error _ "group" "measure" (Value.str "A")
    (by decide)⟩

/-- C8: whatever the external scipy statistics return, the Normality
Checker runs Shapiro-Wilk exactly when `3 ≤ n ≤ 5000` and the D-Agostino
and Jarque-Bera tests exactly when `n ≥ 8`; a test whose sample-size
precondition is unmet contributes no entry at all (skipped, not failed),
and the result dictionary holds entries only for the tests that ran. -/
theorem normality_tests_gating {α : Type}
    (shapiroF normaltestF jarque_beraF : List ℚ → α) (data : List ℚ) :
    ("Shapiro-Wilk" ∈
        (test_normality shapiroF normaltestF jarque_beraF data).map Prod.fst ↔
      3 ≤ data.length ∧ data.length ≤ 5000) ∧
    ("DAgostino K2" ∈
        (test_normality shapiroF normaltestF jarque_beraF data).map Prod.fst ↔
      8 ≤ data.length) ∧
    ("Jarque-Bera" ∈
        (test_normality shapiroF normaltestF jarque_beraF data).map Prod.fst ↔
      8 ≤ data.length) ∧
    (∀ k ∈ (test_normality shapiroF normaltestF jarque_beraF data).map Prod.fst,
      k = "Shapiro-Wilk" ∨ k = "DAgostino K2" ∨ k = "Jarque-Bera") := by
  by_cases h1 : 3 ≤ data.length ∧ data.length ≤ 5000 <;>
    by_cases h2 : 8 ≤ data.length <;>
      simp [test_normality, h1, h2]

theorem normality_tests_gating_witness :
    "Jarque-Bera" ∈
      (test_normality (fun _ => (0 : ℚ)) (fun _ => 0) (fun _ => 0)
        [1, 2, 3, 4, 5, 6, 7, 8]).map Prod.fst :=
  ((normality_tests_gating (fun _ => (0 : ℚ)) (fun _ => 0) (fun _ => 0)
    [1, 2, 3, 4, 5, 6, 7, 8]).2.2.1).mpr (by norm_num)

/-- C9: for every `kappa > 0` and `rho ≥ 0` with positive denominator, the
SEF Calculator returns a finite value that is at least `1`. -/
theorem sef_enhancement_ge_one (kappa rho : ℝ) (hk : 0 < kappa)
    (hr : 0 ≤ rho) (hd : 0 < 1 + kappa - 2 * Real.sqrt kappa * rho) :
    calculate_sef kappa rho =
      NpValue.fin ((1 + kappa) / (1 + kappa - 2 * Real.sqrt kappa * rho)) ∧
    1 ≤ (1 + kappa) / (1 + kappa - 2 * Real.sqrt kappa * rho) := by
  refine ⟨calculate_sef_eq_fin kappa rho (not_lt.2 hk.le) hd, ?_⟩
  rw [one_le_div hd]
  have hnn : 0 ≤ 2 * Real.sqrt kappa * rho := by positivity
  linarith

theorem sef_enhancement_ge_one_witness :
    calculate_sef 4 (1 / 2) =
      NpValue.fin ((1 + 4) / (1 + 4 - 2 * Real.sqrt 4 * (1 / 2))) ∧
    1 ≤ (1 + 4) / (1 + 4 - 2 * Real.sqrt 4 * (1 / 2)) :=
  sef_enhancement_ge_one 4 (1 / 2) (by norm_num) (by norm_num)
    (by rw [show (4 : ℝ) = 2 ^ 2 by norm_num,
      Real.sqrt_sq (by norm_num : (0 : ℝ) ≤ 2)]; norm_num)

/-- Unfolding lemma: with a positive baseline SNR and a positive relative
variance, `calculate_sef_improvement` returns the ratio of the two SNRs. -/
lemma calculate_sef_improvement_eq_fin (delta mA cB rho : ℝ)
    (h1 : 0 < delta ^ 2 / (mA ^ 2 + cB ^ 2))
    (h2 : 0 < mA ^ 2 + cB ^ 2 - 2 * rho * mA * cB) :
    calculate_sef_improvement delta mA cB rho =
      NpValue.fin ((delta ^ 2 / (mA ^ 2 + cB ^ 2 - 2 * rho * mA * cB)) /
        (delta ^ 2 / (mA ^ 2 + cB ^ 2))) := by
  simp only [calculate_sef_improvement, if_pos h1, if_pos h2]

/-- C10: on the shared domain (nonzero signal separation, positive
standard deviations, correlation in [-1, 1], positive guarded
denominator), the SNR-ratio formulation of `calculate_sef_improvement`
equals the closed form `calculate_sef` evaluated at the variance ratio
`kappa = cleveland_var / mayo_var`. -/
theorem snr_ratio_eq_closed_form (delta mayo_std cleveland_std rho : ℝ)
    (hδ : delta ≠ 0) (hA : 0 < mayo_std) (hB : 0 < cleveland_std)
    (_hρ : -1 ≤ rho ∧ rho ≤ 1)
    (hd : 0 < 1 + cleveland_std ^ 2 / mayo_std ^ 2 -
      2 * Real.sqrt (cleveland_std ^ 2 / mayo_std ^ 2) * rho) :
    calculate_sef_improvement delta mayo_std cleveland_std rho =
      calculate_sef (cleveland_std ^ 2 / mayo_std ^ 2) rho := by
  have hκ : (0 : ℝ) < cleveland_std ^ 2 / mayo_std ^ 2 := by positivity
  have hm : mayo_std ≠ 0 := hA.ne'
  have hsqrt : Real.sqrt (cleveland_std ^ 2 / mayo_std ^ 2) =
      cleveland_std / mayo_std := by
    rw [Real.sqrt_div (sq_nonneg cleveland_std), Real.sqrt_sq hB.le,
      Real.sqrt_sq hA.le]
  have hA2 : (0 : ℝ) < mayo_std ^ 2 := by positivity
  have hrel : mayo_std ^ 2 + cleveland_std ^ 2 -
      2 * rho * mayo_std * cleveland_std =
      mayo_std ^ 2 * (1 + cleveland_std ^ 2 / mayo_std ^ 2 -
        2 * (cleveland_std / mayo_std) * rho) := by
    field_simp
    ring
  have hd' : 0 < 1 + cleveland_std ^ 2 / mayo_std ^ 2 -
      2 * (cleveland_std / mayo_std) * rho := by rw [← hsqrt]; exact hd
  have hrelpos : 0 < mayo_std ^ 2 + cleveland_std ^ 2 -
      2 * rho * mayo_std * cleveland_std := by
    rw [hrel]; exact mul_pos hA2 hd'
  have hδ2 : (0 : ℝ) < delta ^ 2 := by positivity
  have htot : (0 : ℝ) < mayo_std ^ 2 + cleveland_std ^ 2 := by positivity
  rw [calculate_sef_improvement_eq_fin delta mayo_std cleveland_std rho
    (div_pos hδ2 htot) hrelpos,
    calculate_sef_eq_fin _ rho (not_lt.2 hκ.le) hd]
  have hD : 1 + cleveland_std ^ 2 / mayo_std ^ 2 -
      2 * (cleveland_std / mayo_std) * rho ≠ 0 := hd'.ne'
  congr 1
  rw [hsqrt, hrel, div_div_div_comm, div_self hδ2.ne', one_div, inv_div]
  field_simp

theorem snr_ratio_eq_closed_form_witness :
    calculate_sef_improvement 1 1 2 0 = calculate_sef (2 ^ 2 / 1 ^ 2) 0 :=
  snr_ratio_eq_closed_form 1 1 2 0 (by norm_num) (by norm_num) (by norm_num)
    ⟨by norm_num, by norm_num⟩ (by norm_num)

end UP1
